import Mathlib

/-!
Shallow embedding of the listings catalog service (FastAPI + SQLModel over
Postgres): data model from app/models.py, request/response schemas from
app/schemas, and the two operations of app/api/listings.py — the read path
(get_listings, its union/aggregation subqueries, filters, ordering and
pagination) and the write path (upsert_listings with its helpers
_upsert_listing, _upsert_properties, _upsert_entities).

Database tables are lists of rows; a session/transaction is explicit state
passing, with rollback modelled by returning the pre-call state.  Timestamps
(datetime) are modelled as integers with their order; JSON objects on
dataset entities are association lists of string keys and string values,
with JSONB containment as key/value lookup.  Python lower-casing is modelled
for ASCII, which covers every type string the dispatch map distinguishes.
Exceptions are modelled with Except: the one exception source inside the
orchestrator loop is the KeyError of the value-table dispatch map.
-/

namespace App

/-- PropertyType enum from models.py. -/
inductive PropertyType where
  | STRING
  | BOOLEAN
deriving DecidableEq

/-- A row of the test_listings table (models.py Listing). -/
structure Listing where
  listing_id : String
  scan_date : Int
  is_active : Bool
  dataset_entity_ids : List Nat
  image_hashes : List String
deriving DecidableEq

/-- A row of the test_properties table (models.py Property). -/
structure Property where
  property_id : Nat
  name : String
  type : PropertyType
deriving DecidableEq

/-- A row of the test_property_values_str table. -/
structure StringPropertyValue where
  listing_id : String
  property_id : Nat
  value : String
deriving DecidableEq

/-- A row of the test_property_values_bool table. -/
structure BooleanPropertyValue where
  listing_id : String
  property_id : Nat
  value : Bool
deriving DecidableEq

/-- A row of the test_dataset_entities table; the JSONB data payload is an
association list of string keys and string values. -/
structure DatasetEntity where
  entity_id : Nat
  name : String
  data : List (String × String)
deriving DecidableEq

/-- The whole relational store, plus the auto-increment counters that assign
primary keys to new Property and DatasetEntity rows. -/
structure DB where
  listings : List Listing
  properties : List Property
  string_values : List StringPropertyValue
  bool_values : List BooleanPropertyValue
  entities : List DatasetEntity
  next_property_id : Nat
  next_entity_id : Nat
deriving DecidableEq

def emptyDB : DB := ⟨[], [], [], [], [], 1, 1⟩

/-- schemas/request.py Property (one property entry of an upsert payload). -/
structure UpsertProperty where
  name : String
  type : String
  value : String
deriving DecidableEq

/-- schemas/request.py Entity. -/
structure UpsertEntity where
  name : String
  data : List (String × String)
deriving DecidableEq

/-- schemas/request.py UpsertListing. -/
structure UpsertListing where
  listing_id : String
  scan_date : Int
  is_active : Bool
  image_hashes : List String
  properties : List UpsertProperty
  entities : List UpsertEntity
deriving DecidableEq

/-- schemas/request.py ListingGetRequest, with the dataset_entities and
properties filters already parsed into the shapes the query loop consumes
(a JSON object, and a mapping from property id to expected value). -/
structure ListingGetRequest where
  page : Option Int
  listing_id : Option String
  scan_date_from : Option Int
  scan_date_to : Option Int
  is_active : Option Bool
  image_hashes : Option (List String)
  dataset_entities : Option (List (String × String))
  properties : Option (List (Nat × String))
deriving DecidableEq

/-- The request with every field at its schema default (page = 1, all
filters absent). -/
def defaultGetRequest : ListingGetRequest :=
  ⟨some 1, none, none, none, none, none, none, none⟩

/-- schemas/response.py UpsertListingsError. -/
structure UpsertListingsError where
  listing_id : String
  error : String
deriving DecidableEq

/-- schemas/response.py UpsertListingsResponse. -/
structure UpsertListingsResponse where
  status : String
  error : Option UpsertListingsError
deriving DecidableEq

/-- BOOL_LIKE_VALUES from app/api/utils.py. -/
def BOOL_LIKE_VALUES : List String :=
  ["true", "True", "1", "on", "yes", "false", "False", "0", "off", "no"]

/-- is_bool_like from app/api/utils.py. -/
def is_bool_like (value : String) : Bool := BOOL_LIKE_VALUES.contains value

/-- The boolean pydantic TypeAdapter(bool).validate_python yields on each of
the bool-like strings: the truthy spellings give True, the rest False. -/
def pydanticBool (value : String) : Bool :=
  ["true", "True", "1", "on", "yes"].contains value

/-- A Postgres boolean rendered as text (and equally the result of Python
str(b).lower() on a bool): true and false. -/
def boolToString (b : Bool) : String := if b then "true" else "false"

/-- ASCII model of Python str.lower on one character. -/
def lowerChar (c : Char) : Char :=
  if c.toNat ≥ 65 ∧ c.toNat ≤ 90 then Char.ofNat (c.toNat + 32) else c

/-- ASCII model of Python str.lower. -/
def lowerStr (s : String) : String := String.mk (s.data.map lowerChar)

/-- One row of the union of the two value tables built at the top of
get_listings: string rows tagged str, boolean rows cast to text and tagged
bool. -/
structure PVRow where
  listing_id : String
  property_id : Nat
  value : String
  type : String
deriving DecidableEq

/-- property_values_union from get_listings (the union of string_props and
bool_props). -/
def property_values_union (db : DB) : List PVRow :=
  db.string_values.map (fun r => ⟨r.listing_id, r.property_id, r.value, "str"⟩)
    ++ db.bool_values.map
      (fun r => ⟨r.listing_id, r.property_id, boolToString r.value, "bool"⟩)

/-- One name/type/value triple of the aggregated properties column. -/
structure PropView where
  name : String
  type : String
  value : String
deriving DecidableEq

/-- One name/data pair of the aggregated entities column. -/
structure EntityView where
  name : String
  data : List (String × String)
deriving DecidableEq

/-- The aggregated properties of one listing: every union row of the listing
joined to its Property row (get_listings properties_subquery); the coalesce
to an empty array is the empty list. -/
def propsAgg (db : DB) (lid : String) : List PropView :=
  ((property_values_union db).filter (fun r => r.listing_id == lid)).flatMap
    (fun r =>
      (db.properties.filter (fun p => p.property_id == r.property_id)).map
        (fun p => ⟨p.name, r.type, r.value⟩))

/-- JSONB containment data @> flt on flat objects: every key/value pair of
the filter is present in data with an equal value. -/
def jsonContains (data flt : List (String × String)) : Bool :=
  flt.all (fun kv => data.lookup kv.1 == some kv.2)

/-- The aggregated entities of one listing (get_listings entities_subquery):
the entities whose id appears in the association array, restricted by the
containment clause when the dataset_entities filter is a non-empty object
(an empty or absent filter is falsy in Python, so no clause is added). -/
def entitiesAgg (db : DB) (f : ListingGetRequest) (l : Listing) : List EntityView :=
  (db.entities.filter (fun e =>
      l.dataset_entity_ids.contains e.entity_id &&
        (match f.dataset_entities with
          | some flt => flt.isEmpty || jsonContains e.data flt
          | none => true))).map (fun e => ⟨e.name, e.data⟩)

/-- The bool_value a property filter entry is compared against for
boolean-typed rows: a bool-like expected value goes through pydantic bool
validation and back to a lower-cased string, anything else is left as
supplied. -/
def bool_value_of (expected : String) : String :=
  if is_bool_like expected then boolToString (pydanticBool expected) else expected

/-- The EXISTS subquery of one property filter entry: some union row of this
listing and property matches, where boolean-tagged rows compare against the
normalized expected value and string-tagged ones against the raw one. -/
def property_exists (db : DB) (lid : String) (pid : Nat) (expected : String) : Bool :=
  (property_values_union db).any (fun r =>
    r.listing_id == lid && r.property_id == pid &&
      (if r.type == "bool" then r.value == bool_value_of expected
        else if r.type == "str" then r.value == expected
        else false))

/-- The conjunction of all WHERE clauses get_listings and _add_filters put on
the main statement.  Empty strings, lists and objects are falsy in Python,
so such filter values add no clause; the scan_date clauses are added only
when both bounds are present; a dataset_entities filter adds only the
cardinality check on the association array. -/
def matchesFilters (db : DB) (f : ListingGetRequest) (l : Listing) : Bool :=
  (match f.dataset_entities with
    | some flt => flt.isEmpty || decide (0 < l.dataset_entity_ids.length)
    | none => true) &&
  (match f.properties with
    | some ps =>
        ps.isEmpty || ps.all (fun pe => property_exists db l.listing_id pe.1 pe.2)
    | none => true) &&
  (match f.listing_id with
    | some s => s.isEmpty || l.listing_id == s
    | none => true) &&
  (match f.scan_date_from, f.scan_date_to with
    | some a, some b => decide (a ≤ l.scan_date) && decide (l.scan_date ≤ b)
    | _, _ => true) &&
  (match f.is_active with
    | some b => l.is_active == b
    | none => true) &&
  (match f.image_hashes with
    | some hs => hs.isEmpty || hs.any (fun h => l.image_hashes.contains h)
    | none => true)

/-- One formatted row of the read response (the dict built at the end of
get_listings). -/
structure ListingView where
  listing_id : String
  scan_date : Option Int
  is_active : Bool
  dataset_entity_ids : List Nat
  image_hashes : List String
  properties : List PropView
  entities : List EntityView
deriving DecidableEq

/-- The formatted view of one listing row. -/
def toView (db : DB) (f : ListingGetRequest) (l : Listing) : ListingView :=
  ⟨l.listing_id, some l.scan_date, l.is_active, l.dataset_entity_ids,
    l.image_hashes, propsAgg db l.listing_id, entitiesAgg db f l⟩

def PAGE_SIZE : Nat := 100

/-- Lexicographic at-most comparison on character lists, the text ordering
Postgres uses for ORDER BY on the listing_id column. -/
def listLexLe : List Char → List Char → Bool
  | [], _ => true
  | _ :: _, [] => false
  | a :: as, b :: bs => if a < b then true else if b < a then false else listLexLe as bs

/-- Lexicographic at-most comparison on strings. -/
def strLe (a b : String) : Bool := listLexLe a.data b.data

/-- The ORDER BY listing_id relation. -/
def listingLe (a b : Listing) : Prop := strLe a.listing_id b.listing_id = true

instance : DecidableRel listingLe := fun a b =>
  inferInstanceAs (Decidable (strLe a.listing_id b.listing_id = true))

/-- The filtered result set in listing_id order, before LIMIT and OFFSET. -/
def sorted_filtered (db : DB) (f : ListingGetRequest) : List Listing :=
  List.insertionSort listingLe (db.listings.filter (matchesFilters db f))

/-- The ordered filtered rows after the OFFSET clause: the offset
(page - 1) * PAGE_SIZE is applied only when page is truthy (page 0 and None
are falsy in Python, so they add no offset). -/
def paged_rows (db : DB) (f : ListingGetRequest) : List Listing :=
  match f.page with
  | some p =>
      if p == 0 then sorted_filtered db f
      else (sorted_filtered db f).drop ((p - 1).toNat * PAGE_SIZE)
  | none => sorted_filtered db f

/-- get_listings from app/api/listings.py: build the filtered statement,
apply the OFFSET, ORDER BY listing_id, LIMIT PAGE_SIZE, and format the rows.
The endpoint returns the bare list of formatted rows. -/
def get_listings (db : DB) (f : ListingGetRequest) : List ListingView :=
  ((paged_rows db f).take PAGE_SIZE).map (toView db f)

/-- _upsert_listing: create the scalar row, or overwrite its scalar fields
and reset the association array on an existing primary key. -/
def _upsert_listing (ld : UpsertListing) (db : DB) : DB :=
  if db.listings.any (fun l => l.listing_id == ld.listing_id) then
    { db with listings := db.listings.map (fun l =>
        if l.listing_id == ld.listing_id then
          ⟨l.listing_id, ld.scan_date, ld.is_active, [], ld.image_hashes⟩
        else l) }
  else
    { db with listings := db.listings ++
        [⟨ld.listing_id, ld.scan_date, ld.is_active, [], ld.image_hashes⟩] }

/-- The two value tables the dispatch dict of _upsert_properties can name. -/
inductive ValueTable where
  | strTable
  | boolTable
deriving DecidableEq

/-- property_table_map from _upsert_properties, as a lookup that is None
exactly where the Python dict access raises KeyError. -/
def property_table_map (t : String) : Option ValueTable :=
  if t == "str" || t == "string" then some ValueTable.strTable
  else if t == "bool" || t == "boolean" then some ValueTable.boolTable
  else none

/-- The find-or-create step of _upsert_properties: look the Property up by
name; when absent, create it with the type derived from the lower-cased
declared type (str or string gives STRING, anything else BOOLEAN) and a
fresh id. -/
def find_or_create_property (pname : String) (ptype_lower : String) (db : DB) :
    DB × Property :=
  match db.properties.find? (fun p => p.name == pname) with
  | some p => (db, p)
  | none =>
    let is_str := ptype_lower == "str" || ptype_lower == "string"
    let p : Property := ⟨db.next_property_id, pname,
      if is_str then PropertyType.STRING else PropertyType.BOOLEAN⟩
    ({ db with properties := db.properties ++ [p],
               next_property_id := db.next_property_id + 1 }, p)

/-- Create-or-update of one string value row by its composite key. -/
def upsert_string_value (lid : String) (pid : Nat) (v : String) (db : DB) : DB :=
  if db.string_values.any (fun r => r.listing_id == lid && r.property_id == pid) then
    { db with string_values := db.string_values.map (fun r =>
        if r.listing_id == lid && r.property_id == pid then ⟨r.listing_id, r.property_id, v⟩
        else r) }
  else
    { db with string_values := db.string_values ++ [⟨lid, pid, v⟩] }

/-- Create-or-update of one boolean value row by its composite key. -/
def upsert_bool_value (lid : String) (pid : Nat) (v : Bool) (db : DB) : DB :=
  if db.bool_values.any (fun r => r.listing_id == lid && r.property_id == pid) then
    { db with bool_values := db.bool_values.map (fun r =>
        if r.listing_id == lid && r.property_id == pid then ⟨r.listing_id, r.property_id, v⟩
        else r) }
  else
    { db with bool_values := db.bool_values ++ [⟨lid, pid, v⟩] }

/-- The body of the _upsert_properties loop for one property entry:
find-or-create the Property by name, pick the value table from the dispatch
map keyed by the lower-cased declared type of this entry (KeyError when
absent), format the value with the formatter of that table (strings pass
through, booleans become value.lower() == true), and upsert the row. -/
def _upsert_one_property (lid : String) (pd : UpsertProperty) (db : DB) :
    Except String DB :=
  let property_type := lowerStr pd.type
  let fc := find_or_create_property pd.name property_type db
  match property_table_map property_type with
  | none => Except.error ("KeyError: " ++ property_type)
  | some ValueTable.strTable =>
      Except.ok (upsert_string_value lid fc.2.property_id pd.value fc.1)
  | some ValueTable.boolTable =>
      Except.ok (upsert_bool_value lid fc.2.property_id
        (lowerStr pd.value == "true") fc.1)

/-- _upsert_properties: the loop over the property entries of one listing;
an exception aborts the remainder. -/
def _upsert_properties (lid : String) :
    List UpsertProperty → DB → Except String DB
  | [], db => Except.ok db
  | pd :: rest, db =>
    match _upsert_one_property lid pd db with
    | Except.error e => Except.error e
    | Except.ok db2 => _upsert_properties lid rest db2

/-- _upsert_entities: find-or-create each DatasetEntity by name (overwriting
the data of an existing one), collecting the entity ids in input order. -/
def _upsert_entities : List UpsertEntity → DB → DB × List Nat
  | [], db => (db, [])
  | ed :: rest, db =>
    let step : DB × Nat :=
      match db.entities.find? (fun e => e.name == ed.name) with
      | some e =>
        ({ db with entities := db.entities.map (fun x =>
            if x.name == ed.name then ⟨x.entity_id, x.name, ed.data⟩ else x) },
          e.entity_id)
      | none =>
        ({ db with entities := db.entities ++ [⟨db.next_entity_id, ed.name, ed.data⟩],
                   next_entity_id := db.next_entity_id + 1 },
          db.next_entity_id)
    let rest_result := _upsert_entities rest step.1
    (rest_result.1, step.2 :: rest_result.2)

/-- The assignment listing_obj.dataset_entity_ids = entity_ids. -/
def set_dataset_entity_ids (lid : String) (ids : List Nat) (db : DB) : DB :=
  { db with listings := db.listings.map (fun l =>
      if l.listing_id == lid then
        ⟨l.listing_id, l.scan_date, l.is_active, ids, l.image_hashes⟩
      else l) }

/-- One iteration of the upsert_listings loop body: scalar row, properties,
entities, then the association array. -/
def process_listing (ld : UpsertListing) (db : DB) : Except String DB :=
  let db1 := _upsert_listing ld db
  match _upsert_properties ld.listing_id ld.properties db1 with
  | Except.error e => Except.error e
  | Except.ok db2 =>
    let er := _upsert_entities ld.entities db2
    Except.ok (set_dataset_entity_ids ld.listing_id er.2 er.1)

/-- upsert_listings from app/api/listings.py: the loop returns success right
after its first iteration, so only the head of the batch is processed; an
exception is caught, the session is rolled back (the pre-call state is
restored) and a failed response naming the in-progress listing id is
returned.  An empty batch falls through the loop and the function body ends
without a return, which is None in Python. -/
def upsert_listings (req : List UpsertListing) (db : DB) :
    DB × Option UpsertListingsResponse :=
  match req with
  | [] => (db, none)
  | ld :: _ =>
    match process_listing ld db with
    | Except.ok db2 => (db2, some ⟨"success", none⟩)
    | Except.error e => (db, some ⟨"failed", some ⟨ld.listing_id, e⟩⟩)

/-! Order facts about the ORDER BY comparison. -/

theorem listLexLe_iff : ∀ as bs : List Char, listLexLe as bs = true ↔ ¬ List.Lex (· < ·) bs as := by
  intro as
  induction as with
  | nil =>
    intro bs
    simp only [listLexLe, true_iff]
    intro h
    cases h
  | cons a as ih =>
    intro bs
    cases bs with
    | nil =>
      simp only [listLexLe, Bool.false_eq_true, false_iff, not_not]
      exact List.Lex.nil
    | cons b bs =>
      simp only [listLexLe]
      by_cases hab : a < b
      · simp only [hab, if_pos, true_iff]
        intro h
        cases h with
        | cons h2 => exact absurd hab (lt_irrefl _)
        | rel h2 => exact absurd h2 (asymm hab)
      · by_cases hba : b < a
        · simp only [hab, if_neg, not_false_iff, hba, if_pos, Bool.false_eq_true,
            false_iff, not_not]
          exact List.Lex.rel hba
        · have hEq : a = b := le_antisymm (not_lt.mp hba) (not_lt.mp hab)
          subst hEq
          simp only [if_neg hab, if_neg hba, ih bs]
          constructor
          · intro h1 h2
            cases h2 with
            | cons h3 => exact h1 h3
            | rel h3 => exact absurd h3 hab
          · intro h1 h2
            exact h1 (List.Lex.cons h2)

theorem strLe_iff (a b : String) : strLe a b = true ↔ a ≤ b := by
  rw [strLe, listLexLe_iff, ← not_lt]
  constructor
  · intro h hc
    exact h (String.lt_iff_toList_lt.mp hc)
  · intro h hc
    exact h (String.lt_iff_toList_lt.mpr hc)

instance : IsTotal Listing listingLe := by
  constructor
  intro a b
  rw [listingLe, listingLe, strLe_iff, strLe_iff]
  exact le_total _ _

instance : IsTrans Listing listingLe := by
  constructor
  intro a b c
  rw [listingLe, listingLe, listingLe, strLe_iff, strLe_iff, strLe_iff]
  exact le_trans

/-! Structure of the read result: the rows of a page come from the ordered
filtered rows, and every returned view is the view of a stored listing row
that passes every filter. -/

theorem paged_rows_sublist (db : DB) (f : ListingGetRequest) :
    (paged_rows db f).Sublist (sorted_filtered db f) := by
  rw [paged_rows]
  cases f.page with
  | none => exact List.Sublist.refl _
  | some p =>
    by_cases h0 : p == 0
    · simp only [h0, if_pos]
      exact List.Sublist.refl _
    · simp only [h0, Bool.false_eq_true, if_false]
      exact List.drop_sublist _ _

theorem sorted_filtered_pairwise (db : DB) (f : ListingGetRequest) :
    (sorted_filtered db f).Pairwise listingLe :=
  List.sorted_insertionSort listingLe _

theorem mem_sorted_filtered (db : DB) (f : ListingGetRequest) (l : Listing) :
    l ∈ sorted_filtered db f ↔ l ∈ db.listings ∧ matchesFilters db f l = true := by
  rw [sorted_filtered, List.mem_insertionSort, List.mem_filter]

theorem get_listings_mem (db : DB) (f : ListingGetRequest) (v : ListingView)
    (hv : v ∈ get_listings db f) :
    ∃ l, l ∈ db.listings ∧ matchesFilters db f l = true ∧ v = toView db f l := by
  rw [get_listings] at hv
  obtain ⟨l, hl, hlv⟩ := List.mem_map.mp hv
  have hl2 : l ∈ sorted_filtered db f :=
    (paged_rows_sublist db f).subset (List.take_subset _ _ hl)
  obtain ⟨h1, h2⟩ := (mem_sorted_filtered db f l).mp hl2
  exact ⟨l, h1, h2, hlv.symm⟩

theorem matchesFilters_split (db : DB) (f : ListingGetRequest) (l : Listing)
    (h : matchesFilters db f l = true) :
    (match f.dataset_entities with
      | some flt => flt.isEmpty || decide (0 < l.dataset_entity_ids.length)
      | none => true) = true ∧
    (match f.properties with
      | some ps =>
          ps.isEmpty || ps.all (fun pe => property_exists db l.listing_id pe.1 pe.2)
      | none => true) = true ∧
    (match f.scan_date_from, f.scan_date_to with
      | some a, some b => decide (a ≤ l.scan_date) && decide (l.scan_date ≤ b)
      | _, _ => true) = true := by
  rw [matchesFilters] at h
  simp only [Bool.and_eq_true] at h
  exact ⟨h.1.1.1.1.1, h.1.1.1.1.2, h.1.1.2⟩

/-! Helper facts about the property upsert path. -/

theorem find_or_create_property_fields (pname pt : String) (db : DB) :
    (find_or_create_property pname pt db).1.string_values = db.string_values ∧
    (find_or_create_property pname pt db).1.bool_values = db.bool_values ∧
    ∀ p ∈ db.properties, p ∈ (find_or_create_property pname pt db).1.properties := by
  rw [find_or_create_property]
  cases db.properties.find? (fun p => p.name == pname) with
  | some p => exact ⟨rfl, rfl, fun p hp => hp⟩
  | none => exact ⟨rfl, rfl, fun p hp => List.mem_append_left _ hp⟩

theorem upsert_string_value_fields (lid : String) (pid : Nat) (v : String) (db : DB) :
    (upsert_string_value lid pid v db).bool_values = db.bool_values ∧
    (upsert_string_value lid pid v db).properties = db.properties := by
  rw [upsert_string_value]
  by_cases h : db.string_values.any (fun r => r.listing_id == lid && r.property_id == pid) <;>
    simp [h]

theorem upsert_bool_value_fields (lid : String) (pid : Nat) (v : Bool) (db : DB) :
    (upsert_bool_value lid pid v db).string_values = db.string_values ∧
    (upsert_bool_value lid pid v db).properties = db.properties := by
  rw [upsert_bool_value]
  by_cases h : db.bool_values.any (fun r => r.listing_id == lid && r.property_id == pid) <;>
    simp [h]

theorem upsert_string_value_mem (lid : String) (pid : Nat) (v : String) (db : DB) :
    ∃ r ∈ (upsert_string_value lid pid v db).string_values,
      r.listing_id = lid ∧ r.property_id = pid ∧ r.value = v := by
  rw [upsert_string_value]
  by_cases h : db.string_values.any (fun r => r.listing_id == lid && r.property_id == pid)
  · simp only [h, if_pos]
    obtain ⟨r0, hr0, hcond⟩ := List.any_eq_true.mp h
    have hcond2 := hcond
    simp only [Bool.and_eq_true] at hcond2
    obtain ⟨h1, h2⟩ := hcond2
    have hmem := List.mem_map_of_mem (fun r : StringPropertyValue =>
      if r.listing_id == lid && r.property_id == pid then
        (⟨r.listing_id, r.property_id, v⟩ : StringPropertyValue) else r) hr0
    simp only [hcond, if_pos] at hmem
    exact ⟨_, hmem, eq_of_beq h1, eq_of_beq h2, rfl⟩
  · simp only [h, Bool.false_eq_true, if_false]
    exact ⟨⟨lid, pid, v⟩, List.mem_append_right _ (List.mem_singleton.mpr rfl),
      rfl, rfl, rfl⟩

theorem upsert_bool_value_mem (lid : String) (pid : Nat) (v : Bool) (db : DB) :
    ∃ r ∈ (upsert_bool_value lid pid v db).bool_values,
      r.listing_id = lid ∧ r.property_id = pid ∧ r.value = v := by
  rw [upsert_bool_value]
  by_cases h : db.bool_values.any (fun r => r.listing_id == lid && r.property_id == pid)
  · simp only [h, if_pos]
    obtain ⟨r0, hr0, hcond⟩ := List.any_eq_true.mp h
    have hcond2 := hcond
    simp only [Bool.and_eq_true] at hcond2
    obtain ⟨h1, h2⟩ := hcond2
    have hmem := List.mem_map_of_mem (fun r : BooleanPropertyValue =>
      if r.listing_id == lid && r.property_id == pid then
        (⟨r.listing_id, r.property_id, v⟩ : BooleanPropertyValue) else r) hr0
    simp only [hcond, if_pos] at hmem
    exact ⟨_, hmem, eq_of_beq h1, eq_of_beq h2, rfl⟩
  · simp only [h, Bool.false_eq_true, if_false]
    exact ⟨⟨lid, pid, v⟩, List.mem_append_right _ (List.mem_singleton.mpr rfl),
      rfl, rfl, rfl⟩

theorem property_table_map_str (t : String) (h : t = "str" ∨ t = "string") :
    property_table_map t = some ValueTable.strTable := by
  rcases h with h | h <;> rw [h] <;> rfl

theorem property_table_map_bool (t : String) (h : t = "bool" ∨ t = "boolean") :
    property_table_map t = some ValueTable.boolTable := by
  rcases h with h | h <;> rw [h] <;> rfl

theorem upsert_one_property_str_route (lid : String) (pd : UpsertProperty) (db db2 : DB)
    (hmap : property_table_map (lowerStr pd.type) = some ValueTable.strTable)
    (h : _upsert_one_property lid pd db = Except.ok db2) :
    db2.bool_values = db.bool_values ∧
    (∀ p ∈ db.properties, p ∈ db2.properties) ∧
    ∃ r ∈ db2.string_values, r.listing_id = lid ∧
      r.property_id = ((find_or_create_property pd.name (lowerStr pd.type) db).2).property_id ∧
      r.value = pd.value := by
  rw [_upsert_one_property] at h
  simp only [hmap] at h
  obtain rfl : upsert_string_value lid
      ((find_or_create_property pd.name (lowerStr pd.type) db).2).property_id pd.value
      ((find_or_create_property pd.name (lowerStr pd.type) db).1) = db2 :=
    Except.ok.inj h
  obtain ⟨hfs, hfb, hfp⟩ := find_or_create_property_fields pd.name (lowerStr pd.type) db
  obtain ⟨hub, hup⟩ := upsert_string_value_fields lid
    ((find_or_create_property pd.name (lowerStr pd.type) db).2).property_id pd.value
    ((find_or_create_property pd.name (lowerStr pd.type) db).1)
  refine ⟨hub.trans hfb, ?_, ?_⟩
  · intro p hp
    rw [hup]
    exact hfp p hp
  · exact upsert_string_value_mem lid _ pd.value _

theorem upsert_one_property_bool_route (lid : String) (pd : UpsertProperty) (db db2 : DB)
    (hmap : property_table_map (lowerStr pd.type) = some ValueTable.boolTable)
    (h : _upsert_one_property lid pd db = Except.ok db2) :
    db2.string_values = db.string_values ∧
    (∀ p ∈ db.properties, p ∈ db2.properties) ∧
    ∃ r ∈ db2.bool_values, r.listing_id = lid ∧
      r.property_id = ((find_or_create_property pd.name (lowerStr pd.type) db).2).property_id ∧
      r.value = (lowerStr pd.value == "true") := by
  rw [_upsert_one_property] at h
  simp only [hmap] at h
  obtain rfl : upsert_bool_value lid
      ((find_or_create_property pd.name (lowerStr pd.type) db).2).property_id
      (lowerStr pd.value == "true")
      ((find_or_create_property pd.name (lowerStr pd.type) db).1) = db2 :=
    Except.ok.inj h
  obtain ⟨hfs, hfb, hfp⟩ := find_or_create_property_fields pd.name (lowerStr pd.type) db
  obtain ⟨hus, hup⟩ := upsert_bool_value_fields lid
    ((find_or_create_property pd.name (lowerStr pd.type) db).2).property_id
    (lowerStr pd.value == "true")
    ((find_or_create_property pd.name (lowerStr pd.type) db).1)
  refine ⟨hus.trans hfs, ?_, ?_⟩
  · intro p hp
    rw [hup]
    exact hfp p hp
  · exact upsert_bool_value_mem lid _ _ _

theorem property_table_map_none (t : String)
    (h : t ∉ (["str", "string", "bool", "boolean"] : List String)) :
    property_table_map t = none := by
  simp only [List.mem_cons, List.not_mem_nil, or_false, not_or] at h
  obtain ⟨h1, h2, h3, h4⟩ := h
  simp [property_table_map, beq_eq_false_iff_ne.mpr h1, beq_eq_false_iff_ne.mpr h2,
    beq_eq_false_iff_ne.mpr h3, beq_eq_false_iff_ne.mpr h4]

theorem upsert_properties_error_of_bad (lid : String) (pd : UpsertProperty)
    (hbad : property_table_map (lowerStr pd.type) = none) :
    ∀ props : List UpsertProperty, pd ∈ props → ∀ db : DB,
      ∃ e, _upsert_properties lid props db = Except.error e := by
  intro props
  induction props with
  | nil =>
    intro hmem
    cases hmem
  | cons q rest ih =>
    intro hmem db
    rw [_upsert_properties]
    cases hq : _upsert_one_property lid q db with
    | error e => exact ⟨e, rfl⟩
    | ok db2 =>
      rcases List.mem_cons.mp hmem with rfl | hmem2
      · rw [_upsert_one_property] at hq
        simp only [hbad] at hq
        exact Except.noConfusion hq
      · obtain ⟨e, he⟩ := ih hmem2 db2
        exact ⟨e, he⟩

/-- The payload of an ok result, with a fallback for the error case. -/
def okOr (x : Except String DB) (d : DB) : DB :=
  match x with
  | Except.ok db => db
  | Except.error _ => d

/-! Concrete inputs used to instantiate the claim theorems. -/

def c1l1 : UpsertListing := ⟨"A1", 0, true, ["h1"], [], []⟩

def c1l2 : UpsertListing := ⟨"A2", 0, true, [], [], []⟩

def c1db : DB := (upsert_listings [c1l1] emptyDB).1

def c7l : UpsertListing := ⟨"B1", 0, true, [], [⟨"p", "weird", "v"⟩], []⟩

def c10l : UpsertListing := ⟨"D1", 1, false, [], [⟨"Size", "Num", "5"⟩], []⟩

def c4u1 : UpsertListing := ⟨"L1", 0, true, [], [⟨"p", "str", "v"⟩], []⟩

def c4u2 : UpsertListing := ⟨"L1", 0, true, [], [⟨"p", "bool", "true"⟩], []⟩

def c4mid : DB := (upsert_listings [c4u1] emptyDB).1

def c4db : DB := (upsert_listings [c4u2] c4mid).1

def c4one : DB := okOr (_upsert_one_property "L1" ⟨"p", "bool", "true"⟩ c4mid) emptyDB

def c9pd : UpsertProperty := ⟨"q", "Bool", "TRUE"⟩

def c9db2 : DB := okOr (_upsert_one_property "W9" c9pd emptyDB) emptyDB

/-- C1: an upsert batch with at least one listing is processed only through
its first listing: the state change and the response of the call equal those
of the singleton batch holding the head (so the listings after the first are
never written), and when processing the head succeeds the response is a
success result for it alone. -/
theorem c1_first_listing_only (ld : UpsertListing) (rest : List UpsertListing) (db : DB) :
    upsert_listings (ld :: rest) db = upsert_listings [ld] db ∧
    ∀ db2, process_listing ld db = Except.ok db2 →
      upsert_listings (ld :: rest) db = (db2, some ⟨"success", none⟩) := by
  constructor
  · rfl
  · intro db2 h
    simp [upsert_listings, h]

theorem c1_witness :
    upsert_listings [c1l1, c1l2] emptyDB = upsert_listings [c1l1] emptyDB ∧
    upsert_listings [c1l1, c1l2] emptyDB = (c1db, some ⟨"success", none⟩) :=
  ⟨(c1_first_listing_only c1l1 [c1l2] emptyDB).1,
    (c1_first_listing_only c1l1 [c1l2] emptyDB).2 c1db rfl⟩

/-- C7: when processing the (first) listing of an upsert batch raises, the
call returns the pre-call state (the rollback leaves no write of the call
visible) together with a failed response naming the in-progress listing id
and a message; upsert_listings is a total function, so the exception never
escapes the operation. -/
theorem c7_rollback_on_error (ld : UpsertListing) (rest : List UpsertListing) (db : DB)
    (e : String) (h : process_listing ld db = Except.error e) :
    upsert_listings (ld :: rest) db = (db, some ⟨"failed", some ⟨ld.listing_id, e⟩⟩) := by
  simp [upsert_listings, h]

theorem c7_witness :
    upsert_listings [c7l] emptyDB =
      (emptyDB, some ⟨"failed", some ⟨"B1", "KeyError: weird"⟩⟩) :=
  c7_rollback_on_error c7l [] emptyDB "KeyError: weird" rfl

/-- C10: if the first listing of an upsert batch holds a property entry whose
lower-cased type string is not one of str, string, bool, boolean (so the
value-table dispatch map has no entry for it), the call returns the pre-call
state (nothing of the call is committed) and a failed response naming that
listing id. -/
theorem c10_unknown_type_fails (db : DB) (ld : UpsertListing) (rest : List UpsertListing)
    (pd : UpsertProperty) (hmem : pd ∈ ld.properties)
    (hbad : lowerStr pd.type ∉ (["str", "string", "bool", "boolean"] : List String)) :
    ∃ e, upsert_listings (ld :: rest) db =
      (db, some ⟨"failed", some ⟨ld.listing_id, e⟩⟩) := by
  obtain ⟨e, he⟩ := upsert_properties_error_of_bad ld.listing_id pd
    (property_table_map_none _ hbad) ld.properties hmem (_upsert_listing ld db)
  refine ⟨e, ?_⟩
  simp [upsert_listings, process_listing, he]

theorem c10_witness :
    ∃ e, upsert_listings [c10l] emptyDB =
      (emptyDB, some ⟨"failed", some ⟨"D1", e⟩⟩) :=
  c10_unknown_type_fails emptyDB c10l [] ⟨"Size", "Num", "5"⟩ (by decide) (by decide)

/-- C4 counterexample: upserting property name p for listing L1 first with
declared type str and value v, then with declared type bool and value true,
leaves value rows for the pair (L1, 1) in BOTH value tables, while the
single Property row keeps its creation-time type STRING — refuting, at this
concrete input, that a pair has a row in at most one table determined by the
type fixed at creation. -/
theorem c4_counterexample :
    c4db.string_values = [⟨"L1", 1, "v"⟩] ∧
    c4db.bool_values = [⟨"L1", 1, true⟩] ∧
    c4db.properties = [⟨1, "p", PropertyType.STRING⟩] :=
  ⟨rfl, rfl, rfl⟩

/-- C4 (amended): an upsert naming an existing property reuses the stored
Property row unchanged (id and type), but each value write is routed to the
table chosen by the lower-cased declared type string of the current call,
not by the stored type: a str/string call leaves the boolean table untouched
and upserts the string row of the resolved property id, and a bool/boolean
call does the reverse, so a pair may gain rows in both tables when the same
name is upserted under both type families. -/
theorem c4_value_table_routing (lid : String) (pd : UpsertProperty) (db db2 : DB)
    (h : _upsert_one_property lid pd db = Except.ok db2) :
    (∀ p ∈ db.properties, p ∈ db2.properties) ∧
    ((lowerStr pd.type = "str" ∨ lowerStr pd.type = "string") →
      db2.bool_values = db.bool_values ∧
      ∃ r ∈ db2.string_values, r.listing_id = lid ∧
        r.property_id =
          ((find_or_create_property pd.name (lowerStr pd.type) db).2).property_id ∧
        r.value = pd.value) ∧
    ((lowerStr pd.type = "bool" ∨ lowerStr pd.type = "boolean") →
      db2.string_values = db.string_values ∧
      ∃ r ∈ db2.bool_values, r.listing_id = lid ∧
        r.property_id =
          ((find_or_create_property pd.name (lowerStr pd.type) db).2).property_id ∧
        r.value = (lowerStr pd.value == "true")) := by
  refine ⟨?_, ?_, ?_⟩
  · cases hmap : property_table_map (lowerStr pd.type) with
    | none =>
      rw [_upsert_one_property] at h
      simp only [hmap] at h
      exact Except.noConfusion h
    | some vt =>
      cases vt with
      | strTable => exact (upsert_one_property_str_route lid pd db db2 hmap h).2.1
      | boolTable => exact (upsert_one_property_bool_route lid pd db db2 hmap h).2.1
  · intro ht
    have hmap := property_table_map_str _ ht
    exact ⟨(upsert_one_property_str_route lid pd db db2 hmap h).1,
      (upsert_one_property_str_route lid pd db db2 hmap h).2.2⟩
  · intro ht
    have hmap := property_table_map_bool _ ht
    exact ⟨(upsert_one_property_bool_route lid pd db db2 hmap h).1,
      (upsert_one_property_bool_route lid pd db db2 hmap h).2.2⟩

theorem c4_witness :
    (∀ p ∈ c4mid.properties, p ∈ c4one.properties) ∧
    c4one.string_values = c4mid.string_values ∧
    ∃ r ∈ c4one.bool_values, r.listing_id = "L1" ∧
      r.property_id =
        ((find_or_create_property "p" (lowerStr "bool") c4mid).2).property_id ∧
      r.value = (lowerStr "true" == "true") := by
  have h := c4_value_table_routing "L1" ⟨"p", "bool", "true"⟩ c4mid c4one rfl
  exact ⟨h.1, (h.2.2 (Or.inl rfl)).1, (h.2.2 (Or.inl rfl)).2⟩

/-- C9: a boolean-typed property upsert normalizes the incoming string by
lower-casing and comparing to true: the upserted boolean row of the resolved
property id stores true exactly when the lower-cased value equals true, and
any other string is stored as false. -/
theorem c9_bool_normalization (lid : String) (pd : UpsertProperty) (db db2 : DB)
    (ht : lowerStr pd.type = "bool" ∨ lowerStr pd.type = "boolean")
    (h : _upsert_one_property lid pd db = Except.ok db2) :
    ∃ r ∈ db2.bool_values, r.listing_id = lid ∧
      r.property_id =
        ((find_or_create_property pd.name (lowerStr pd.type) db).2).property_id ∧
      (r.value = true ↔ lowerStr pd.value = "true") := by
  obtain ⟨-, -, r, hr, h1, h2, h3⟩ :=
    upsert_one_property_bool_route lid pd db db2 (property_table_map_bool _ ht) h
  refine ⟨r, hr, h1, h2, ?_⟩
  rw [h3]
  exact beq_iff_eq

theorem c9_witness :
    ∃ r ∈ c9db2.bool_values, r.listing_id = "W9" ∧
      r.property_id =
        ((find_or_create_property "q" (lowerStr "Bool") emptyDB).2).property_id ∧
      (r.value = true ↔ lowerStr "TRUE" = "true") :=
  c9_bool_normalization "W9" c9pd emptyDB c9db2 (Or.inl (by decide)) rfl

/-! Concrete read-path inputs: the seeded sample data of the integration
tests (conftest.py create_sample_listings), and smaller stores. -/

def s112 : UpsertListing := ⟨"112", 10, true, ["hash1"],
  [⟨"Brand", "str", "Samsung"⟩, ⟨"Has Delivery", "bool", "false"⟩],
  [⟨"entity_one", [("key1", "value1"), ("key2", "value2")]⟩]⟩

def s113 : UpsertListing := ⟨"113", 11, true, ["hash2", "hash3"],
  [⟨"Brand", "str", "Apple"⟩, ⟨"Has Delivery", "bool", "true"⟩],
  [⟨"entity_two", [("key3", "value3")]⟩]⟩

def s114 : UpsertListing := ⟨"114", 12, true, ["hash4", "hash5", "hash6"],
  [⟨"Brand", "str", "Google"⟩, ⟨"Has Delivery", "bool", "true"⟩],
  [⟨"entity_one", [("key1", "value1"), ("key2", "value2")]⟩]⟩

def sampleDB : DB :=
  (upsert_listings [s114]
    ((upsert_listings [s113] ((upsert_listings [s112] emptyDB).1)).1)).1

def c3f : ListingGetRequest :=
  ⟨some 1, none, none, none, none, none, some [("key3", "value3")], none⟩

def c2db : DB :=
  ⟨[⟨"W2", 0, true, [], []⟩], [⟨1, "hd", PropertyType.BOOLEAN⟩], [],
    [⟨"W2", 1, true⟩], [], 2, 1⟩

def c2f : ListingGetRequest :=
  ⟨some 1, none, none, none, none, none, none, some [(1, "yes")]⟩

def c2v : ListingView := toView c2db c2f ⟨"W2", 0, true, [], []⟩

def c6db : DB := ⟨[⟨"E1", 5, true, [], []⟩], [], [], [], [], 1, 1⟩

def c6fFrom : ListingGetRequest := ⟨some 1, none, some 10, none, none, none, none, none⟩

def c6fBoth : ListingGetRequest := ⟨some 1, none, some 0, some 10, none, none, none, none⟩

def c6v : ListingView := toView c6db c6fBoth ⟨"E1", 5, true, [], []⟩

/-- A listing id padded to three digits, so that numeric and lexicographic
order agree on the 150-listing store. -/
def pad3 (n : Nat) : String :=
  (if n < 10 then "00" else if n < 100 then "0" else "") ++ toString n

def db150 : DB :=
  ⟨(List.range 150).map (fun n => ⟨pad3 n, Int.ofNat n, true, [], []⟩),
    [], [], [], [], 1, 1⟩

def page2Request : ListingGetRequest := ⟨some 2, none, none, none, none, none, none, none⟩

/-- schemas/response.py ListingsGetResponse: the listings-plus-total shape
the tests and the claim expect; get_listings never constructs it (its
response_model is a bare list). -/
structure ListingsGetResponse where
  listings : List ListingView
  total : Nat
deriving DecidableEq

/-- The request filter that clears both scan_date bounds and keeps every
other field. -/
def clearDates (f : ListingGetRequest) : ListingGetRequest :=
  ⟨f.page, f.listing_id, none, none, f.is_active, f.image_hashes,
    f.dataset_entities, f.properties⟩

/-- C2: under a properties filter, a listing view is returned only if, for
every entry of the mapping, some row of the value-table union exists for
that listing and property whose stored value equals the expected value: a
boolean-tagged row compares against the normalized expected value — an
expected value in the bool-like set is converted to the string form of its
boolean, any other expected value is compared as supplied — and a
string-tagged row compares against the expected value itself. -/
theorem c2_properties_filter_only_if (db : DB) (f : ListingGetRequest)
    (ps : List (Nat × String)) (v : ListingView) (hf : f.properties = some ps)
    (hv : v ∈ get_listings db f) (pe : Nat × String) (hpe : pe ∈ ps) :
    (is_bool_like pe.2 = true → bool_value_of pe.2 = boolToString (pydanticBool pe.2)) ∧
    (is_bool_like pe.2 = false → bool_value_of pe.2 = pe.2) ∧
    ∃ r ∈ property_values_union db, r.listing_id = v.listing_id ∧
      r.property_id = pe.1 ∧
      ((r.type = "bool" ∧ r.value = bool_value_of pe.2) ∨
        (r.type = "str" ∧ r.value = pe.2)) := by
  refine ⟨?_, ?_, ?_⟩
  · intro hb
    simp [bool_value_of, hb]
  · intro hb
    simp [bool_value_of, hb]
  · obtain ⟨l, hl, hm, rfl⟩ := get_listings_mem db f v hv
    obtain ⟨-, h2, -⟩ := matchesFilters_split db f l hm
    simp only [hf, Bool.or_eq_true] at h2
    rcases h2 with h2 | h2
    · rw [List.isEmpty_iff] at h2
      subst h2
      cases hpe
    · have hp := List.all_eq_true.mp h2 pe hpe
      rw [property_exists] at hp
      obtain ⟨r, hr, hcond⟩ := List.any_eq_true.mp hp
      refine ⟨r, hr, ?_⟩
      simp only [Bool.and_eq_true] at hcond
      obtain ⟨⟨hc1, hc2⟩, hc3⟩ := hcond
      refine ⟨eq_of_beq hc1, eq_of_beq hc2, ?_⟩
      cases hb : r.type == "bool" with
      | true =>
        simp only [hb, if_true] at hc3
        exact Or.inl ⟨eq_of_beq hb, eq_of_beq hc3⟩
      | false =>
        simp only [hb, Bool.false_eq_true, if_false] at hc3
        cases hs : r.type == "str" with
        | true =>
          simp only [hs, if_true] at hc3
          exact Or.inr ⟨eq_of_beq hs, eq_of_beq hc3⟩
        | false =>
          simp only [hs, Bool.false_eq_true, if_false] at hc3

theorem c2_witness :
    (is_bool_like "yes" = true → bool_value_of "yes" = boolToString (pydanticBool "yes")) ∧
    (is_bool_like "yes" = false → bool_value_of "yes" = "yes") ∧
    ∃ r ∈ property_values_union c2db, r.listing_id = c2v.listing_id ∧
      r.property_id = 1 ∧
      ((r.type = "bool" ∧ r.value = bool_value_of "yes") ∨
        (r.type = "str" ∧ r.value = "yes")) :=
  c2_properties_filter_only_if c2db c2f [(1, "yes")] c2v rfl (by decide)
    (1, "yes") (by decide)

/-- C3 (code eval): against the seeded sample data of the integration tests
(listings 112 and 114 associated with entity_one carrying key1/key2,
listing 113 with entity_two carrying key3 = value3), the dataset_entities
filter key3 = value3 returns ALL THREE listings — 112 and 114 come back with
an empty entities array — because the code only requires a non-empty
dataset_entity_ids array on the main statement and places the containment
condition inside the left-joined aggregation subquery.  The claim, and the
repo's test test_get_listings_with_dataset_entities, require listing 113
alone. -/
theorem c3_entities_filter_code_eval :
    (get_listings sampleDB c3f).map (fun v => v.listing_id) = ["112", "113", "114"] ∧
    (get_listings sampleDB c3f).map (fun v => v.entities) =
      [[], [⟨"entity_two", [("key3", "value3")]⟩], []] :=
  ⟨rfl, rfl⟩

set_option maxRecDepth 100000 in
/-- C5 (code eval): get_listings returns the bare list of listing views — its
result carries no total field anywhere (the ListingsGetResponse shape of
schemas/response.py, asserted by every integration test, is never built).
At the concrete store of 150 matching listings, page 1 is a bare
100-element list and page 2 the remaining 50; no count of the unpaginated
result accompanies them. -/
theorem c5_bare_list_code_eval :
    (get_listings db150 defaultGetRequest).length = 100 ∧
    (get_listings db150 page2Request).length = 50 :=
  ⟨rfl, rfl⟩

/-- C6 counterexample: with only scan_date_from = 10 given, the listing E1
with scan_date 5 is still returned (a lone bound adds no WHERE clause),
refuting that every returned listing then has scan_date at least
scan_date_from. -/
theorem c6_counterexample :
    (get_listings c6db c6fFrom).map (fun v => (v.listing_id, v.scan_date)) =
      [("E1", some 5)] :=
  rfl

/-- C6 (amended): the scan_date bounds restrict the result only when both are
given: when either bound is absent the result equals that of the request
with no scan_date bounds at all, and with both given every returned listing
has scan_date inside the inclusive range. -/
theorem c6_scan_date_both_bounds (db : DB) (f : ListingGetRequest) :
    ((f.scan_date_from = none ∨ f.scan_date_to = none) →
      get_listings db f = get_listings db (clearDates f)) ∧
    ∀ a b v, f.scan_date_from = some a → f.scan_date_to = some b →
      v ∈ get_listings db f → ∃ d, v.scan_date = some d ∧ a ≤ d ∧ d ≤ b := by
  constructor
  · intro h
    obtain ⟨pg, li, sf, st, ia, ih, de, pr⟩ := f
    rcases h with h | h
    · dsimp only at h
      subst h
      rfl
    · dsimp only at h
      subst h
      cases sf with
      | none => rfl
      | some a => rfl
  · intro a b v hfrom hto hv
    obtain ⟨l, hl, hm, rfl⟩ := get_listings_mem db f v hv
    obtain ⟨-, -, h3⟩ := matchesFilters_split db f l hm
    simp only [hfrom, hto, Bool.and_eq_true, decide_eq_true_eq] at h3
    exact ⟨l.scan_date, rfl, h3.1, h3.2⟩

theorem c6_witness :
    (get_listings c6db c6fFrom = get_listings c6db (clearDates c6fFrom)) ∧
    ∃ d, c6v.scan_date = some d ∧ 0 ≤ d ∧ d ≤ 10 :=
  ⟨(c6_scan_date_both_bounds c6db c6fFrom).1 (Or.inr rfl),
    (c6_scan_date_both_bounds c6db c6fBoth).2 0 10 c6v rfl rfl (by decide)⟩

/-- C8: every read result is ordered by listing_id ascending and carries at
most PAGE_SIZE rows, and for a page p of at least 1 the result is exactly
the map-to-view of the rows at offsets (p-1)*PAGE_SIZE through
p*PAGE_SIZE - 1 of the ordered filtered rows. -/
theorem c8_order_limit_offset (db : DB) (f : ListingGetRequest) :
    (get_listings db f).Pairwise (fun v w => v.listing_id ≤ w.listing_id) ∧
    (get_listings db f).length ≤ PAGE_SIZE ∧
    ∀ p : Int, f.page = some p → 1 ≤ p →
      get_listings db f =
        (((sorted_filtered db f).drop ((p - 1).toNat * PAGE_SIZE)).take PAGE_SIZE).map
          (toView db f) := by
  refine ⟨?_, ?_, ?_⟩
  · have hs : (sorted_filtered db f).Pairwise listingLe := sorted_filtered_pairwise db f
    have hsub : ((paged_rows db f).take PAGE_SIZE).Sublist (sorted_filtered db f) :=
      (List.take_sublist _ _).trans (paged_rows_sublist db f)
    have hp : ((paged_rows db f).take PAGE_SIZE).Pairwise listingLe :=
      List.Pairwise.sublist hsub hs
    rw [get_listings, List.pairwise_map]
    exact hp.imp (fun h => (strLe_iff _ _).mp h)
  · rw [get_listings, List.length_map]
    exact List.length_take_le _ _
  · intro p hp h1
    have h0 : (p == 0) = false := beq_eq_false_iff_ne.mpr (by omega)
    simp [get_listings, paged_rows, hp, h0]

theorem c8_witness :
    (get_listings c6db defaultGetRequest).Pairwise
      (fun v w => v.listing_id ≤ w.listing_id) ∧
    (get_listings c6db defaultGetRequest).length ≤ PAGE_SIZE ∧
    get_listings c6db defaultGetRequest =
      (((sorted_filtered c6db defaultGetRequest).drop
        (((1 : Int) - 1).toNat * PAGE_SIZE)).take PAGE_SIZE).map
        (toView c6db defaultGetRequest) :=
  ⟨(c8_order_limit_offset c6db defaultGetRequest).1,
    (c8_order_limit_offset c6db defaultGetRequest).2.1,
    (c8_order_limit_offset c6db defaultGetRequest).2.2 1 rfl (by decide)⟩

end App
